import Mathlib

/-!
Verification of the ClaudeGram URL-summarization pipeline.

This file shallowly embeds the content-extraction / quality-scoring /
escalation / tool-dispatch code of the repository
(`src/telegram_handler/content_extractor.py`,
`src/telegram_handler/claude_agent.py`, `src/common/database.py`)
and proves or refutes the specification's claims about it.

Modelling conventions:
  * Python strings are Lean `String`s; character-level scanning works on
    `String.data : List Char`.  `\w` and Python whitespace are modelled over
    ASCII (all inputs of interest here are ASCII or CJK text, and CJK
    characters are neither ASCII word characters nor whitespace in any
    branch the claims exercise).
  * Machine-learned collaborators (the Anthropic model client), the network
    (aiohttp), the Lambda invocation, and the BeautifulSoup HTML parser are
    external libraries, not code of this repository; they are modelled as
    oracle inputs (fields of an environment record), while every branch of
    the repository's own control flow is translated faithfully.
  * Python exceptions are `Except String`; the raised message is the
    payload.
-/

set_option maxRecDepth 20000

namespace ClaudeGram

/-! ### content_extractor.py — data model -/

/-- Structure `ExtractedMetadata` from content_extractor.py (lines 24-35). -/
structure ExtractedMetadata where
  title : String := ""
  description : String := ""
  author : String := ""
  og_title : String := ""
  og_description : String := ""
  og_image : String := ""
  og_site_name : String := ""
  published_time : String := ""
deriving DecidableEq

/-- Structure `ExtractedContent` from content_extractor.py (lines 38-48).
The human-readable `decision_reason` trace is carried as a `String`. -/
structure ExtractedContent where
  text : String := ""
  title : String := ""
  metadata : ExtractedMetadata := {}
  sources : List String := []
  quality_score : Int := 0
  decision : String := "unprocessable"
  decision_reason : String := ""
deriving DecidableEq

/-! ### Word counting and paragraph splitting (helpers for `_assess_quality`)

Python `str.split()` with no argument splits on runs of whitespace and
discards empty pieces; `len(text.split())` is therefore the number of
maximal non-whitespace runs.  `text.split("\n")` keeps empty pieces. -/

/-- ASCII whitespace as recognized by Python `str.split()` / `str.strip()`. -/
def is_py_space (c : Char) : Bool :=
  c = ' ' || c = '\t' || c = '\n' || c = '\r' || c = '\x0b' || c = '\x0c'

/-- Count maximal non-whitespace runs; the flag records whether the previous
character was inside a word. -/
def count_words_aux : Bool → List Char → Nat
  | _, [] => 0
  | inWord, c :: rest =>
    if is_py_space c then count_words_aux false rest
    else (if inWord then 0 else 1) + count_words_aux true rest

/-- Python `len(text.split())` from `_assess_quality` (line 312). -/
def word_count (t : String) : Nat :=
  count_words_aux false t.data

/-- Python `text.split` at newlines: split on every newline, keeping empty segments. -/
def split_lines : List Char → List (List Char)
  | [] => [[]]
  | c :: rest =>
    if c = '\n' then [] :: split_lines rest
    else
      match split_lines rest with
      | g :: gs => (c :: g) :: gs
      | [] => [[c]]

/-- Python `len(p.strip())`: length after stripping whitespace on both ends. -/
def stripped_len (p : List Char) : Nat :=
  ((p.dropWhile is_py_space).reverse.dropWhile is_py_space).length

/-- Number of line segments whose stripped length is at least 30
(`_assess_quality` line 329). -/
def paragraph_count (t : String) : Nat :=
  ((split_lines t.data).filter (fun p => 30 ≤ stripped_len p)).length

/-! ### `_NEGATIVE_PATTERNS` (content_extractor.py lines 287-291)

The compiled regex is
`(loading\.{2,}|please wait|javascript (is )?required|enable javascript|`
`\x7b\x7b[\w.]+\x7d\x7d|<%[^%]+%>|\x7b%[^%]+%\x7d|\[object object\])`
with `re.IGNORECASE`, applied by `findall` to `text[:3000]`.  We model the
scan directly: lowercase the first 3000 characters, then repeatedly try the
alternatives (in the pattern's order) at each position, counting
non-overlapping matches and advancing past each match.  Every alternative
consumes at least one character, so fuel equal to the scanned length is
always sufficient. -/

/-- Match a literal character sequence at the head of the input, returning
the remaining input (the alternatives below pre-lowercase both sides). -/
def match_lit : List Char → List Char → Option (List Char)
  | [], rest => some rest
  | _ :: _, [] => none
  | p :: ps, c :: cs => if p = c then match_lit ps cs else none

/-- Greedily take characters satisfying `f`, returning the count and rest. -/
def take_count (f : Char → Bool) : List Char → Nat × List Char
  | [] => (0, [])
  | c :: cs =>
    if f c then
      let r := take_count f cs
      (r.1 + 1, r.2)
    else (0, c :: cs)

/-- Alternative `loading\.{2,}` — "loading" followed by two or more dots (greedy). -/
def alt_loading (l : List Char) : Option (List Char) :=
  match match_lit "loading".data l with
  | none => none
  | some r =>
    let d := take_count (fun c => c = '.') r
    if 2 ≤ d.1 then some d.2 else none

/-- Alternative `please wait`. -/
def alt_please_wait (l : List Char) : Option (List Char) :=
  match_lit "please wait".data l

/-- Alternative `javascript (is )?required` — the optional group is tried first. -/
def alt_js_required (l : List Char) : Option (List Char) :=
  match match_lit "javascript ".data l with
  | none => none
  | some r =>
    match match_lit "is required".data r with
    | some r2 => some r2
    | none => match_lit "required".data r

/-- Alternative `enable javascript`. -/
def alt_enable_js (l : List Char) : Option (List Char) :=
  match_lit "enable javascript".data l

/-- A character of the class `[\w.]` (ASCII model of `\w`). -/
def is_template_char (c : Char) : Bool :=
  c.isAlphanum || c = '_' || c = '.'

/-- Alternative `\x7b\x7b[\w.]+\x7d\x7d` — a double-brace template placeholder.  The
greedy run cannot contain a closing brace, so maximal-munch followed by the
literal close is exact. -/
def alt_moustache (l : List Char) : Option (List Char) :=
  match match_lit ['{', '{'] l with
  | none => none
  | some r =>
    let d := take_count is_template_char r
    if 1 ≤ d.1 then match_lit ['}', '}'] d.2 else none

/-- Alternative `<%[^%]+%>` — an ERB-style placeholder. -/
def alt_erb (l : List Char) : Option (List Char) :=
  match match_lit ['<', '%'] l with
  | none => none
  | some r =>
    let d := take_count (fun c => c ≠ '%') r
    if 1 ≤ d.1 then match_lit ['%', '>'] d.2 else none

/-- Alternative `\x7b%[^%]+%\x7d` — a Jinja-style placeholder. -/
def alt_jinja (l : List Char) : Option (List Char) :=
  match match_lit ['{', '%'] l with
  | none => none
  | some r =>
    let d := take_count (fun c => c ≠ '%') r
    if 1 ≤ d.1 then match_lit ['%', '}'] d.2 else none

/-- Alternative `\[object object\]`. -/
def alt_object_object (l : List Char) : Option (List Char) :=
  match_lit "[object object]".data l

/-- Try the alternatives of `_NEGATIVE_PATTERNS` in the pattern's order. -/
def try_negative_alternatives (l : List Char) : Option (List Char) :=
  alt_loading l <|> alt_please_wait l <|> alt_js_required l <|>
    alt_enable_js l <|> alt_moustache l <|> alt_erb l <|> alt_jinja l <|>
    alt_object_object l

/-- Left-to-right scan counting non-overlapping matches, advancing past each
match (or by one character when no alternative matches here). -/
def count_matches : Nat → List Char → Nat
  | 0, _ => 0
  | _, [] => 0
  | fuel + 1, c :: rest =>
    match try_negative_alternatives (c :: rest) with
    | some r => 1 + count_matches fuel r
    | none => count_matches fuel rest

/-- Python `len(_NEGATIVE_PATTERNS.findall(text[:3000]))` (line 370). -/
def negative_matches (t : String) : Nat :=
  let l := (t.data.take 3000).map Char.toLower
  count_matches l.length l

/-! ### `_assess_quality` (content_extractor.py lines 294-386) -/

/-- Join strings with a separator (`sep.join(parts)`). -/
def join_with (sep : String) : List String → String
  | [] => ""
  | [t] => t
  | t :: ts => t ++ sep ++ join_with sep ts

/-- Word-count tier (lines 312-326): points and reason fragment. -/
def word_count_points (wc : Nat) : Int × String :=
  if 500 ≤ wc then (40, "word_count=" ++ toString wc ++ " (+40)")
  else if 200 ≤ wc then (30, "word_count=" ++ toString wc ++ " (+30)")
  else if 100 ≤ wc then (20, "word_count=" ++ toString wc ++ " (+20)")
  else if 50 ≤ wc then (10, "word_count=" ++ toString wc ++ " (+10)")
  else (0, "word_count=" ++ toString wc ++ " (+0)")

/-- Paragraph-structure tier (lines 329-340). -/
def paragraph_points (pc : Nat) : Int × String :=
  if 5 ≤ pc then (20, "paragraphs=" ++ toString pc ++ " (+20)")
  else if 3 ≤ pc then (15, "paragraphs=" ++ toString pc ++ " (+15)")
  else if 1 ≤ pc then (5, "paragraphs=" ++ toString pc ++ " (+5)")
  else (0, "paragraphs=" ++ toString pc ++ " (+0)")

/-- Set `high_confidence_sources` (line 343). -/
def high_confidence_sources : List String :=
  ["next_data", "nuxt_data", "json_ld", "semantic:article"]

/-- Set `medium_confidence_sources` (line 344). -/
def medium_confidence_sources : List String :=
  ["semantic:main", "semantic:role-main", "semantic:id-match", "semantic:class-match"]

/-- Data-source-confidence tier (lines 342-356). -/
def source_points (sources : List String) : Int × String :=
  if sources.any (fun s => high_confidence_sources.contains s) then
    (25, "high_confidence_source (+25)")
  else if sources.any (fun s => medium_confidence_sources.contains s) then
    (15, "medium_confidence_source (+15)")
  else if sources.contains "fallback:body" then
    (5, "fallback_source (+5)")
  else (0, "no_source (+0)")

/-- Metadata-completeness tier (lines 358-367); a field is "present" when
non-empty (Python truthiness). -/
def metadata_points (m : ExtractedMetadata) : Int × String :=
  let p1 : Int := if m.title ≠ "" ∨ m.og_title ≠ "" then 5 else 0
  let p2 : Int := if m.description ≠ "" ∨ m.og_description ≠ "" then 5 else 0
  let p3 : Int := if m.author ≠ "" ∨ m.published_time ≠ "" then 5 else 0
  (p1 + p2 + p3, "metadata (+" ++ toString (p1 + p2 + p3) ++ ")")

/-- The additive part of the score before negative signals and clamping. -/
def base_score (text : String) (sources : List String) (m : ExtractedMetadata) : Int :=
  (word_count_points (word_count text)).1 + (paragraph_points (paragraph_count text)).1 +
    (source_points sources).1 + (metadata_points m).1

/-- Python `min(len(negative_matches) * 10, 30)` when matches exist, else 0. -/
def negative_penalty (nm : Nat) : Int :=
  if 0 < nm then min ((nm : Int) * 10) 30 else 0

/-- Python `score = max(0, min(100, score))` (line 377). -/
def clamp_score (raw : Int) : Int :=
  max 0 (min 100 raw)

/-- Function `_assess_quality` (lines 294-386): returns (score, decision, reason). -/
def assess_quality (text : String) (sources : List String) (m : ExtractedMetadata) :
    Int × String × String :=
  let wp := word_count_points (word_count text)
  let pp := paragraph_points (paragraph_count text)
  let sp := source_points sources
  let mp := metadata_points m
  let nm := negative_matches text
  let negReasons : List String :=
    if 0 < nm then
      ["negative_signals=" ++ toString nm ++ " (-" ++ toString (negative_penalty nm) ++ ")"]
    else []
  let score := clamp_score (base_score text sources m - negative_penalty nm)
  let reason := join_with "; " ([wp.2, pp.2, sp.2, mp.2] ++ negReasons)
  let decision :=
    if 40 ≤ score then "sufficient"
    else if 15 ≤ score then "insufficient"
    else "unprocessable"
  (score, decision, reason)

/-! ### `_deep_extract_text` (content_extractor.py lines 114-145)

JSON-parsed Python values.  Dicts are insertion-ordered association lists
with distinct keys (the result of `json.loads`); numbers, booleans and
`null` contribute no text and are collapsed into `prim`. -/

inductive PyVal where
  | str (s : String)
  | dict (entries : List (String × PyVal))
  | arr (items : List PyVal)
  | prim

/-- Python `t.startswith(p)`, character by character. -/
def py_startswith (t : String) (p : String) : Bool :=
  (match_lit p.data t.data).isSome

/-- A string "that looks like content" (line 130): at least 20 characters
and not starting with a URL / data-URI / path marker. -/
def content_like (s : String) : Bool :=
  20 ≤ s.length &&
    !(py_startswith s "http://" || py_startswith s "https://" ||
      py_startswith s "data:" || py_startswith s "/")

/-- The prioritized high-value keys (lines 134-135). -/
def high_value_keys : List String :=
  ["body", "content", "text", "description", "articleBody",
   "abstract", "summary", "excerpt"]

/-- Function `_deep_extract_text(obj, max_depth)`: the `Nat` argument is `max_depth`
(`0` returns `""`, mirroring `max_depth <= 0`).  For dict nodes the
high-value keys are harvested first (needing only `len >= 20`), and then the
recursion descends into **all** values (line 139: `for value in
obj.values()`), not merely the non-harvested ones. -/
def deep_extract_text : Nat → PyVal → String
  | 0, _ => ""
  | d + 1, obj =>
    let texts : List String :=
      match obj with
      | .str s => if content_like s then [s] else []
      | .dict es =>
        (high_value_keys.filterMap fun k =>
          match es.lookup k with
          | some (.str s) => if 20 ≤ s.length then some s else none
          | _ => none) ++
        es.map (fun kv => deep_extract_text d kv.2)
      | .arr items => items.map (fun it => deep_extract_text d it)
      | .prim => []
    join_with "\n" (texts.filter (fun t => t ≠ ""))

/-! ### `extract_content_from_html` (content_extractor.py lines 392-451)

HTML parsing is done by BeautifulSoup (an external library), so the four
probes over the parsed soup — `_extract_next_data`, `_extract_nuxt_data`,
`_extract_json_ld` and `_extract_semantic_content` — are abstracted as the
(text, source-tag) pairs they return for the given document.  Everything
from line 407 on (fusion, source-list assembly, quality assessment, result
assembly) is translated exactly. -/

/-- The loop of lines 415-423: keep the single longest non-empty embedded
result, starting from `("", "")`. -/
def best_embedded (outs : List (String × String)) : String × String :=
  outs.foldl
    (fun best out => if out.1 ≠ "" ∧ best.1.length < out.1.length then out else best)
    ("", "")

/-- Lines 425-428: if an embedded winner exists, it becomes the working text
and its tag the source list. -/
def embedded_stage (best : String × String) : String × List String :=
  if best.1 ≠ "" then (best.1, [best.2]) else ("", [])

/-- Lines 431-438: fuse the semantic extractor's result into the working
(text, sources) pair — a longer (or first) semantic text wins and its tag is
prepended; otherwise the semantic tag is appended when not already
present. -/
def fuse_semantic (ae : String × List String) (sem : String × String) :
    String × List String :=
  if sem.1 ≠ "" then
    if ae.1 = "" ∨ ae.1.length < sem.1.length then
      (sem.1, sem.2 :: ae.2)
    else if sem.2 ∉ ae.2 then (ae.1, ae.2 ++ [sem.2])
    else ae
  else ae

/-- Function `extract_content_from_html`, given the outputs of the three embedded
extractors (in their tried order) and of the semantic extractor, plus the
extracted metadata. -/
def extract_content_from_html (nextD nuxtD jsonLd sem : String × String)
    (meta : ExtractedMetadata) : ExtractedContent :=
  let title := if meta.og_title ≠ "" then meta.og_title else meta.title
  let fused := fuse_semantic (embedded_stage (best_embedded [nextD, nuxtD, jsonLd])) sem
  let q := assess_quality fused.1 fused.2 meta
  { text := fused.1, title := title, metadata := meta, sources := fused.2,
    quality_score := q.1, decision := q.2.1, decision_reason := q.2.2 }

/-- The source tags an embedded-data extractor can emit. -/
def embedded_tags : List String := ["next_data", "nuxt_data", "json_ld"]

/-- The source tags `_extract_semantic_content` can emit (with text). -/
def semantic_fallback_tags : List String :=
  ["semantic:article", "semantic:main", "semantic:role-main",
   "semantic:id-match", "semantic:class-match", "fallback:body"]

/-- Contract visibly satisfied by each embedded-data extractor
(content_extractor.py lines 148-246): it returns `("", "")` or a text of at
least 100 characters tagged with its fixed tag. -/
def EmbeddedWF (out : String × String) (tag : String) : Prop :=
  out = ("", "") ∨ (out.2 = tag ∧ 100 ≤ out.1.length)

/-- Contract visibly satisfied by `_extract_semantic_content` (lines
61-108): either the text is empty (tag "none") or the tag is one of the
semantic/fallback tags. -/
def SemanticWF (out : String × String) : Prop :=
  out.1 = "" ∨ out.2 ∈ semantic_fallback_tags

/-! ### `URLSummaryRepository.get_summary_by_url` (database.py lines 523-538) -/

/-- A row of the `url_summaries` table (the columns the pipeline reads). -/
structure SummaryRow where
  conversation_id : Nat
  url : String
  title : String
  summary_zh_tw : String
  created_at : Nat
deriving DecidableEq

/-- Query `SELECT * FROM url_summaries WHERE conversation_id = ? AND url = ?
ORDER BY created_at DESC LIMIT 1` — filter, then keep a row of maximal
`created_at` (the table's invariant is at most one row per pair, so the
tie-break is immaterial). -/
def get_summary_by_url (rows : List SummaryRow) (conv : Nat) (u : String) :
    Option SummaryRow :=
  (rows.filter fun r => r.conversation_id = conv ∧ r.url = u).foldl
    (fun acc r =>
      match acc with
      | none => some r
      | some b => if b.created_at < r.created_at then some r else some b)
    none

/-! ### `claude_agent.py` — effect-traced models

The service's collaborators (HTTP fetch, the Anthropic model client, the
Lambda invocation, `_simple_summarize`'s whole re-fetch path, the Telegram
notifier and the SQLite cache write) are oracles in an environment record;
each method returns its result string together with the ordered list of
collaborator effects it performed. -/

inductive Eff where
  | fetchHtml        -- `_fetch_html` HTTP GET (line 371)
  | extractContent   -- `extract_content_from_html` run on the fetched HTML
  | modelCall        -- `_summarize_content`'s Anthropic call (line 605)
  | lambdaInvoke     -- the Playwright Lambda invocation (line 573)
  | notify           -- `_send_telegram_message` (line 106)
  | cacheWrite       -- `url_repo.save_summary`
  | simpleFallback   -- the whole `_simple_summarize` path (line 489)
deriving DecidableEq

/-- The JSON payload returned by the Playwright Lambda (fields read by
`_playwright_summarize`).  `errorMessage.isSome` models
`"errorMessage" in result`. -/
structure LambdaPayload where
  errorMessage : Option String := none
  summary_zh_tw : Option String := none
  title : Option String := none
  raw_content : Option String := none
  content_hash : Option String := none
deriving DecidableEq

/-- Function `_playwright_summarize` (claude_agent.py lines 564-599).
`fn` is `config.summarizer_function_name` (with `none` for unset/empty),
`invokeResult` the transport outcome of the Lambda invocation (exception or
parsed payload), `simpleResult` the string `_simple_summarize(url)` would
return (that method swallows its own exceptions and always returns a
string). -/
def playwright_summarize (fn : Option String)
    (invokeResult : Except String LambdaPayload) (simpleResult : String) :
    String × List Eff :=
  match fn with
  | none => (simpleResult, [.simpleFallback])
  | some _ =>
    match invokeResult with
    | .error _ => (simpleResult, [.lambdaInvoke, .simpleFallback])
    | .ok payload =>
      match payload.errorMessage with
      | some msg => ("無法摘要此網頁: " ++ msg, [.lambdaInvoke])
      | none =>
        let summary := payload.summary_zh_tw.getD "無法生成摘要"
        (summary, [.lambdaInvoke, .cacheWrite])

/-- The reliable-source vocabulary of `_execute_summarize_url` (lines
438-442). -/
def reliable_sources : List String :=
  ["next_data", "nuxt_data", "json_ld",
   "semantic:article", "semantic:main", "semantic:role-main",
   "semantic:id-match", "semantic:class-match"]

/-- Environment for one `_execute_summarize_url(url)` call. -/
structure SummarizeEnv where
  rows : List SummaryRow                        -- cache table contents
  conversationId : Nat
  url : String
  fn : Option String                            -- summarizer_function_name
  fetchResult : Except String String            -- `_fetch_html` outcome
  extractResult : ExtractedContent              -- pipeline result on that HTML
  summarizeResult : Except String String        -- `_summarize_content` outcome
  invokeResult : Except String LambdaPayload    -- Lambda transport outcome
  simpleResult : String                         -- `_simple_summarize` result

/-- Function `_summarize_content` then the enclosing `except` clause of
`_execute_summarize_url`: on success the summary is cached; an exception
falls into the handler of lines 479-487. -/
def summarize_content_branch (env : SummarizeEnv) (pre : List Eff) :
    String × List Eff :=
  match env.summarizeResult with
  | .ok s => (s, pre ++ [.modelCall, .cacheWrite])
  | .error e =>
    match env.fn with
    | some _ =>
      let pw := playwright_summarize env.fn env.invokeResult env.simpleResult
      (pw.1, pre ++ [.modelCall, .notify] ++ pw.2)
    | none => ("無法摘要此網頁: " ++ e, pre ++ [.modelCall])

/-- Function `_execute_summarize_url` (claude_agent.py lines 399-487). -/
def execute_summarize_url (env : SummarizeEnv) : String × List Eff :=
  match get_summary_by_url env.rows env.conversationId env.url with
  | some row => (row.summary_zh_tw, [])
  | none =>
    match env.fetchResult with
    | .error e =>
      match env.fn with
      | some _ =>
        let pw := playwright_summarize env.fn env.invokeResult env.simpleResult
        (pw.1, [.fetchHtml, .notify] ++ pw.2)
      | none => ("無法摘要此網頁: " ++ e, [.fetchHtml])
    | .ok _ =>
      let ex := env.extractResult
      let pre : List Eff := [.fetchHtml, .extractContent]
      if ex.decision = "sufficient" then
        summarize_content_branch env pre
      else if ex.decision = "insufficient" then
        if ex.text ≠ "" ∧ ex.sources.any (fun s => reliable_sources.contains s) then
          summarize_content_branch env pre
        else if env.fn.isSome then
          let pw := playwright_summarize env.fn env.invokeResult env.simpleResult
          (pw.1, pre ++ [.notify] ++ pw.2)
        else if ex.text ≠ "" then
          summarize_content_branch env pre
        else
          ("無法從此網頁提取足夠的內容進行摘要。網頁可能需要 JavaScript 渲染。", pre)
      else
        if env.fn.isSome then
          let pw := playwright_summarize env.fn env.invokeResult env.simpleResult
          (pw.1, pre ++ [.notify] ++ pw.2)
        else
          ("無法摘要此網頁。原因：" ++
            (if ex.decision_reason ≠ "" then ex.decision_reason else "無法提取內容"), pre)

/-! ### `_handle_tool_use` (claude_agent.py lines 638-652) and the
tool-use loop of `process_message` (lines 654-730)

Tool executors return either a plain string or a list of content blocks
(images/documents); the blocks themselves are opaque to the dispatcher and
the loop, so they are abstracted as an unstructured payload. -/

inductive ToolOut where
  | str (s : String)
  | contentBlocks (n : Nat)
deriving DecidableEq

/-- Oracles for the three executors.  `web_search` and `summarize_url`
always return strings; `analyze_file_url` may return blocks. -/
structure ToolEnv where
  webSearch : String → String
  summarizeUrl : String → String
  analyzeFile : String → ToolOut

/-- Look up a parameter in the tool-input dict. -/
def lookup_param (input : List (String × String)) (k : String) : Option String :=
  input.lookup k

/-- Function `_handle_tool_use(tool_name, tool_input)`.  A subscript on a missing
key (`tool_input["query"]` / `tool_input["url"]`) raises `KeyError`; any
other name returns the unknown-tool string. -/
def handle_tool_use (env : ToolEnv) (toolName : String)
    (input : List (String × String)) : Except String ToolOut :=
  if toolName = "web_search" then
    match lookup_param input "query" with
    | some q => .ok (.str (env.webSearch q))
    | none => .error "KeyError: query"
  else if toolName = "summarize_url" then
    match lookup_param input "url" with
    | some u => .ok (env.summarizeUrl u |> ToolOut.str)
    | none => .error "KeyError: url"
  else if toolName = "analyze_file_url" then
    match lookup_param input "url" with
    | some u => .ok (env.analyzeFile u)
    | none => .error "KeyError: url"
  else
    .ok (.str ("未知工具: " ++ toolName))

/-- A block of a model response's `content`. -/
inductive Block where
  | text (s : String)
  | toolUse (id : String) (name : String) (input : List (String × String))
deriving DecidableEq

/-- One response from the model collaborator. -/
structure ModelResponse where
  stop_reason : String
  content : List Block
deriving DecidableEq

/-- Message content in the running history: user text, an assistant
response's blocks, or a list of tool results paired by `tool_use_id`. -/
inductive MsgContent where
  | text (s : String)
  | blocks (bs : List Block)
  | toolResults (rs : List (String × ToolOut))
deriving DecidableEq

structure Message where
  role : String
  content : MsgContent
deriving DecidableEq

/-- Python `block.type == "tool_use"`. -/
def is_tool_use_block : Block → Bool
  | .toolUse _ _ _ => true
  | _ => false

/-- Python `[block for block in response.content if block.type == "tool_use"]`. -/
def tool_use_blocks (r : ModelResponse) : List Block :=
  r.content.filter is_tool_use_block

/-- The correlation ids of the tool-use blocks, in order. -/
def req_ids (bs : List Block) : List String :=
  bs.filterMap fun b =>
    match b with
    | .toolUse i _ _ => some i
    | _ => none

/-- The text blocks of a response, in order. -/
def text_blocks (r : ModelResponse) : List String :=
  r.content.filterMap fun b =>
    match b with
    | .text s => some s
    | _ => none

/-- Python `text_blocks[0].text if text_blocks else "抱歉，我無法生成回覆。"`
(lines 726-730). -/
def extract_final_text (r : ModelResponse) : String :=
  match text_blocks r with
  | [] => "抱歉，我無法生成回覆。"
  | s :: _ => s

/-- Execute the requested tool calls sequentially (lines 701-709),
pairing each result with its request's id; the first raised exception
aborts the turn.  Non-tool-use blocks never occur in the filtered input. -/
def run_tool_uses (env : ToolEnv) : List Block → Except String (List (String × ToolOut))
  | [] => .ok []
  | .text _ :: rest => run_tool_uses env rest
  | .toolUse i n inp :: rest =>
    match handle_tool_use env n inp with
    | .error e => .error e
    | .ok out =>
      match run_tool_uses env rest with
      | .error e => .error e
      | .ok rs => .ok ((i, out) :: rs)

/-- Outcome of handling one model response in the loop. -/
inductive StepResult where
  | done (answer : String)
  | next (messages : List Message)
  | failed (e : String)
deriving DecidableEq

/-- One iteration of the `while response.stop_reason == "tool_use"` loop
(lines 691-723): no tool-use blocks (or another stop reason) ends the loop
and the final text is extracted; otherwise all requested tools run and the
assistant turn plus the paired results are appended before the next model
call. -/
def agent_step (env : ToolEnv) (messages : List Message) (r : ModelResponse) :
    StepResult :=
  if r.stop_reason = "tool_use" then
    match tool_use_blocks r with
    | [] => .done (extract_final_text r)
    | _ :: _ =>
      match run_tool_uses env (tool_use_blocks r) with
      | .error e => .failed e
      | .ok rs =>
        .next (messages ++ [⟨"assistant", .blocks r.content⟩, ⟨"user", .toolResults rs⟩])
  else .done (extract_final_text r)

/-- The whole loop, driven by the pre-scripted list of model responses
(successive return values of `client.messages.create`).  `none` means the
script was exhausted while the loop still wanted another model call — the
loop itself has no iteration cap. -/
def process_loop (env : ToolEnv) : List ModelResponse → List Message →
    Option (Except String String)
  | [], _ => none
  | r :: rest, msgs =>
    match agent_step env msgs r with
    | .done a => some (.ok a)
    | .failed e => some (.error e)
    | .next msgs2 => process_loop env rest msgs2

/-- Python `p.strip()` on a Lean string. -/
def strip_string (t : String) : String :=
  ⟨(t.data.dropWhile is_py_space).reverse.dropWhile is_py_space |>.reverse⟩

/-- The URL pre-processing of `process_message` (lines 671-679): a single
short or URL-leading user message is rewritten into an explicit
summarize-url instruction. -/
def prepare_messages (messages : List Message) (urls : List String) :
    List Message :=
  match urls, messages with
  | u :: _, [⟨role, .text t⟩] =>
    let s := strip_string t
    if py_startswith s "http" = true ∨ s.length < 100 then
      [⟨role, .text ("請使用 summarize_url 工具摘要以下網頁: " ++ u)⟩]
    else messages
  | _, _ => messages

/-- Function `process_message(messages, urls)` against a scripted model. -/
def process_message (env : ToolEnv) (responses : List ModelResponse)
    (messages : List Message) (urls : List String) :
    Option (Except String String) :=
  process_loop env responses (prepare_messages messages urls)

/-! ### Concrete inputs used by witnesses and counterexamples -/

/-- A text of 500 words on 5 long lines, the first line starting with one
"please wait" boilerplate marker. -/
def cex4_text : String :=
  join_with "\n"
    (("please wait " ++ String.join (List.replicate 98 "aa ")) ::
      List.replicate 4 (String.join (List.replicate 100 "aa ")))

/-- A text of 500 clean words on 5 long lines. -/
def wit4_text : String :=
  join_with "\n" (List.replicate 5 (String.join (List.replicate 100 "aa ")))

def cex4_sources : List String := ["next_data"]

def cex4_meta : ExtractedMetadata :=
  { title := "t", description := "d", author := "a" }

/-- Three "Loading..." markers and nothing else. -/
def cex5_with : String := "Loading... Loading... Loading..."

/-- The same text with the three "Loading..." substrings deleted. -/
def cex5_without : String := "  "

def wit5_tail : String := String.join (List.replicate 200 "aa ")

def wit5_with : String := "Loading... Loading... Loading... " ++ wit5_tail

/-- A 25-character content-like string. -/
def cex7_str : String := "abcdefghijklmnopqrstuvwxy"

def cex7_obj : PyVal := .dict [("body", .str cex7_str)]

def wit2_row : SummaryRow :=
  { conversation_id := 7, url := "https://example.com/a", title := "T",
    summary_zh_tw := "cached summary", created_at := 1 }

def wit2_env : SummarizeEnv :=
  { rows := [wit2_row], conversationId := 7, url := "https://example.com/a",
    fn := none, fetchResult := .error "HTTP 500", extractResult := {},
    summarizeResult := .ok "fresh", invokeResult := .ok {},
    simpleResult := "simple" }

def wit6_a120 : String := String.mk (List.replicate 120 'a')

def wit6_a150 : String := String.mk (List.replicate 150 'a')

def wit8_env : ToolEnv :=
  { webSearch := fun _ => "W", summarizeUrl := fun _ => "S",
    analyzeFile := fun _ => .str "A" }

def wit9_env : ToolEnv :=
  { webSearch := fun q => "w:" ++ q, summarizeUrl := fun u => "s:" ++ u,
    analyzeFile := fun _ => .contentBlocks 2 }

def wit9_resp : ModelResponse :=
  { stop_reason := "tool_use",
    content := [.toolUse "id1" "web_search" [("query", "lean")],
                .toolUse "id2" "summarize_url" [("url", "https://x")]] }

def wit9_rs : List (String × ToolOut) :=
  [("id1", .str "w:lean"), ("id2", .str "s:https://x")]

def wit9_rest : List ModelResponse :=
  [{ stop_reason := "end_turn", content := [.text "final"] }]

/-! ## Theorems -/

/-! ### Shared helper lemmas about the scorer -/

theorem assess_quality_fst (t : String) (s : List String) (m : ExtractedMetadata) :
    (assess_quality t s m).1 =
      clamp_score (base_score t s m - negative_penalty (negative_matches t)) := rfl

theorem assess_quality_decision_eq (t : String) (s : List String) (m : ExtractedMetadata) :
    (assess_quality t s m).2.1 =
      (if 40 ≤ (assess_quality t s m).1 then "sufficient"
       else if 15 ≤ (assess_quality t s m).1 then "insufficient"
       else "unprocessable") := rfl

theorem word_count_points_bounds (wc : Nat) :
    0 ≤ (word_count_points wc).1 ∧ (word_count_points wc).1 ≤ 40 := by
  unfold word_count_points
  split_ifs <;> norm_num

theorem paragraph_points_bounds (pc : Nat) :
    0 ≤ (paragraph_points pc).1 ∧ (paragraph_points pc).1 ≤ 20 := by
  unfold paragraph_points
  split_ifs <;> norm_num

theorem source_points_bounds (s : List String) :
    0 ≤ (source_points s).1 ∧ (source_points s).1 ≤ 25 := by
  unfold source_points
  split_ifs <;> norm_num

theorem metadata_points_bounds (m : ExtractedMetadata) :
    0 ≤ (metadata_points m).1 ∧ (metadata_points m).1 ≤ 15 := by
  unfold metadata_points
  dsimp only
  split_ifs <;> norm_num

theorem negative_penalty_bounds (nm : Nat) :
    0 ≤ negative_penalty nm ∧ negative_penalty nm ≤ 30 := by
  unfold negative_penalty
  split_ifs with h
  · refine ⟨le_min (by positivity) (by norm_num), min_le_right _ _⟩
  · norm_num

theorem base_score_bounds (t : String) (s : List String) (m : ExtractedMetadata) :
    0 ≤ base_score t s m ∧ base_score t s m ≤ 100 := by
  have h1 := word_count_points_bounds (word_count t)
  have h2 := paragraph_points_bounds (paragraph_count t)
  have h3 := source_points_bounds s
  have h4 := metadata_points_bounds m
  unfold base_score
  omega

/-! ### Claim C1 -/

/-- Claim C1: for every input triple (text, source-tag list, metadata) the
quality scorer returns an integer score with 0 ≤ score ≤ 100. -/
theorem assess_quality_score_in_range (t : String) (s : List String)
    (m : ExtractedMetadata) :
    0 ≤ (assess_quality t s m).1 ∧ (assess_quality t s m).1 ≤ 100 := by
  rw [assess_quality_fst]
  unfold clamp_score
  omega

/-! ### Claim C4 -/

/-- Claim C4, counterexample to the literal statement: `cex4_text` has 500
words and 5 long line-segments, the source list holds the high-confidence
tag `next_data`, and the metadata carries title, description and author
signals — yet the score is 90 < 95, because the text also contains one
"please wait" negative marker (−10). -/
theorem rich_page_cex :
    500 ≤ word_count cex4_text ∧ 5 ≤ paragraph_count cex4_text ∧
    cex4_sources.any (fun s => high_confidence_sources.contains s) = true ∧
    cex4_meta.title ≠ "" ∧ cex4_meta.description ≠ "" ∧ cex4_meta.author ≠ "" ∧
    ¬(95 ≤ (assess_quality cex4_text cex4_sources cex4_meta).1) := by
  decide

/-- Claim C4 (amended): with the additional hypothesis that no
negative-signal pattern matches in the first 3000 characters, a text with at
least 500 words and at least 5 line-segments of at least 30 characters, a
high-confidence source tag, and title/description/author-or-time metadata
signals scores at least 95 (in fact exactly 100) and decides
"sufficient". -/
theorem rich_page_scores_sufficient (t : String) (s : List String)
    (m : ExtractedMetadata)
    (hw : 500 ≤ word_count t) (hp : 5 ≤ paragraph_count t)
    (hs : s.any (fun x => high_confidence_sources.contains x) = true)
    (ht : m.title ≠ "" ∨ m.og_title ≠ "")
    (hd : m.description ≠ "" ∨ m.og_description ≠ "")
    (ha : m.author ≠ "" ∨ m.published_time ≠ "")
    (hn : negative_matches t = 0) :
    95 ≤ (assess_quality t s m).1 ∧ (assess_quality t s m).2.1 = "sufficient" := by
  have hwp : (word_count_points (word_count t)).1 = 40 := by
    unfold word_count_points
    rw [if_pos hw]
  have hpp : (paragraph_points (paragraph_count t)).1 = 20 := by
    unfold paragraph_points
    rw [if_pos hp]
  have hsp : (source_points s).1 = 25 := by
    unfold source_points
    rw [if_pos hs]
  have hmp : (metadata_points m).1 = 15 := by
    unfold metadata_points
    dsimp only
    rw [if_pos ht, if_pos hd, if_pos ha]
    norm_num
  have hbase : base_score t s m = 100 := by
    unfold base_score
    rw [hwp, hpp, hsp, hmp]
    norm_num
  have hscore : (assess_quality t s m).1 = 100 := by
    rw [assess_quality_fst, hbase, hn]
    decide
  constructor
  · rw [hscore]; norm_num
  · rw [assess_quality_decision_eq, hscore]
    norm_num

/-- Witness for `rich_page_scores_sufficient` at a concrete clean page. -/
theorem rich_page_scores_sufficient_witness :
    95 ≤ (assess_quality wit4_text cex4_sources cex4_meta).1 ∧
      (assess_quality wit4_text cex4_sources cex4_meta).2.1 = "sufficient" :=
  rich_page_scores_sufficient wit4_text cex4_sources cex4_meta
    (by decide) (by decide) (by decide) (by decide) (by decide) (by decide) (by decide)

/-! ### Claim C5 -/

/-- Claim C5, counterexample to the literal statement: for the text
consisting of exactly three "Loading..." markers, the score is 0 and the
score of the same text with the three substrings deleted is also 0 — not 30
lower — because the penalty is clamped at the floor 0 (and removing the
substrings also changes the word/paragraph components). -/
theorem loading_penalty_cex :
    negative_matches cex5_with = 3 ∧
    (assess_quality cex5_with [] {}).1 = 0 ∧
    (assess_quality cex5_without [] {}).1 = 0 ∧
    ¬((assess_quality cex5_without [] {}).1 - (assess_quality cex5_with [] {}).1 = 30) := by
  decide

/-- Claim C5 (amended): if the text with the three "Loading..." markers and
the text without them have the same un-penalized base score (same
word-count, paragraph, source and metadata contributions), the marked text
has exactly 3 negative matches while the unmarked one has none, and the base
score is at least 30 (so the lower clamp does not bite), then the marked
text scores exactly 30 lower. -/
theorem loading_penalty_exact (t0 t1 : String) (s : List String)
    (m : ExtractedMetadata)
    (hbase : base_score t0 s m = base_score t1 s m)
    (h0 : negative_matches t0 = 3) (h1 : negative_matches t1 = 0)
    (hge : 30 ≤ base_score t1 s m) :
    (assess_quality t1 s m).1 - (assess_quality t0 s m).1 = 30 := by
  have hb := base_score_bounds t1 s m
  have hp3 : negative_penalty 3 = 30 := by decide
  have hp0 : negative_penalty 0 = 0 := by decide
  rw [assess_quality_fst, assess_quality_fst, h0, h1, hbase, hp3, hp0]
  unfold clamp_score
  omega

/-- Witness for `loading_penalty_exact` at a concrete 203-word text. -/
theorem loading_penalty_exact_witness :
    (assess_quality wit5_tail [] {}).1 - (assess_quality wit5_with [] {}).1 = 30 :=
  loading_penalty_exact wit5_with wit5_tail [] {}
    (by decide) (by decide) (by decide) (by decide)

/-! ### Claim C2 -/

/-- Claim C2: if the summary cache holds an entry for this conversation and
URL, `_execute_summarize_url` returns that entry's stored summary verbatim
and performs no fetch, no extraction, no model summarization and no
escalation invocation (its effect trace is empty). -/
theorem summarize_url_cache_hit (env : SummarizeEnv) (row : SummaryRow)
    (h : get_summary_by_url env.rows env.conversationId env.url = some row) :
    execute_summarize_url env = (row.summary_zh_tw, []) ∧
    Eff.fetchHtml ∉ (execute_summarize_url env).2 ∧
    Eff.extractContent ∉ (execute_summarize_url env).2 ∧
    Eff.modelCall ∉ (execute_summarize_url env).2 ∧
    Eff.lambdaInvoke ∉ (execute_summarize_url env).2 := by
  have he : execute_summarize_url env = (row.summary_zh_tw, []) := by
    unfold execute_summarize_url
    rw [h]
  refine ⟨he, ?_, ?_, ?_, ?_⟩ <;> rw [he] <;> simp

/-- Witness for `summarize_url_cache_hit` at a concrete populated cache. -/
theorem summarize_url_cache_hit_witness :
    execute_summarize_url wit2_env = ("cached summary", []) ∧
    Eff.fetchHtml ∉ (execute_summarize_url wit2_env).2 ∧
    Eff.extractContent ∉ (execute_summarize_url wit2_env).2 ∧
    Eff.modelCall ∉ (execute_summarize_url wit2_env).2 ∧
    Eff.lambdaInvoke ∉ (execute_summarize_url wit2_env).2 :=
  summarize_url_cache_hit wit2_env wit2_row (by decide)

/-! ### Claim C3 -/

/-- Claim C3, counterexample to the literal statement: when the escalation
collaborator returns an error payload, `_playwright_summarize` does NOT fall
back to the cheap path and DOES surface the raw error — it returns
"無法摘要此網頁: " followed by the payload's `errorMessage`, with no
fallback effect. -/
theorem playwright_error_payload_cex :
    (playwright_summarize (some "summarizer") (.ok { errorMessage := some "AccessDenied" })
        "SIMPLE").1 = "無法摘要此網頁: " ++ "AccessDenied" ∧
    Eff.simpleFallback ∉
      (playwright_summarize (some "summarizer") (.ok { errorMessage := some "AccessDenied" })
        "SIMPLE").2 := by
  decide

/-- Claim C3 (amended): on a transport failure of the invocation,
`_playwright_summarize` falls back to the `_simple_summarize` path; on an
error payload it performs no fallback and returns a message embedding the
collaborator's raw `errorMessage`; on a payload without `summary_zh_tw` it
returns the fixed text "無法生成摘要". -/
theorem playwright_summarize_fallback (fn : String)
    (invokeResult : Except String LambdaPayload) (simpleResult : String) :
    (∀ e, invokeResult = .error e →
       playwright_summarize (some fn) invokeResult simpleResult =
         (simpleResult, [.lambdaInvoke, .simpleFallback])) ∧
    (∀ p msg, invokeResult = .ok p → p.errorMessage = some msg →
       playwright_summarize (some fn) invokeResult simpleResult =
         ("無法摘要此網頁: " ++ msg, [.lambdaInvoke])) ∧
    (∀ p, invokeResult = .ok p → p.errorMessage = none → p.summary_zh_tw = none →
       (playwright_summarize (some fn) invokeResult simpleResult).1 = "無法生成摘要") := by
  refine ⟨?_, ?_, ?_⟩
  · intro e he
    subst he
    rfl
  · intro p msg hp hm
    subst hp
    simp [playwright_summarize, hm]
  · intro p hp hm hs
    subst hp
    simp [playwright_summarize, hm, hs]

/-- Witness for `playwright_summarize_fallback`: transport failure at a
concrete environment falls back to the simple path. -/
theorem playwright_summarize_fallback_witness :
    playwright_summarize (some "summarizer") (.error "timeout") "SIMPLE" =
      ("SIMPLE", [.lambdaInvoke, .simpleFallback]) :=
  (playwright_summarize_fallback "summarizer" (.error "timeout") "SIMPLE").1
    "timeout" rfl

/-! ### Claim C7 -/

/-- Claim C7, counterexample to the literal statement: on the dict
`{"body": cex7_str}` the deep walk emits the qualifying 25-character string
TWICE — once from the high-value-key harvest and once because the recursion
descends into all values, not only the remaining ones. -/
theorem deep_extract_cex :
    deep_extract_text 5 cex7_obj = cex7_str ++ "\n" ++ cex7_str ∧
    split_lines (deep_extract_text 5 cex7_obj).data = [cex7_str.data, cex7_str.data] ∧
    content_like cex7_str = true := by
  decide

/-- Claim C7 (amended): a dict node first harvests the fixed high-value keys
and then recurses into ALL its values, so a content-like string stored under
a high-value key of a singleton dict contributes exactly twice to the
newline-joined output. -/
theorem deep_extract_high_value_twice (k : String) (s : String)
    (hk : k ∈ high_value_keys) (hq : content_like s = true) :
    deep_extract_text 5 (.dict [(k, .str s)]) = s ++ "\n" ++ s := by
  have hlen : 20 ≤ s.length := by
    have hb := hq
    unfold content_like at hb
    rw [Bool.and_eq_true] at hb
    exact of_decide_eq_true hb.1
  have hne : s ≠ "" := by
    intro h
    subst h
    exact absurd hlen (by decide)
  fin_cases hk <;>
    simp [deep_extract_text, high_value_keys, List.lookup, hlen, hq, hne, join_with]

/-- Witness for `deep_extract_high_value_twice` at the key "body". -/
theorem deep_extract_high_value_twice_witness :
    deep_extract_text 5 (.dict [("body", .str cex7_str)]) =
      cex7_str ++ "\n" ++ cex7_str :=
  deep_extract_high_value_twice "body" cex7_str (by decide) (by decide)

/-! ### Claim C8 -/

/-- Claim C8, counterexample to the literal statement: `web_search` is a
known tool, but when its required parameter "query" is absent the dispatcher
raises a `KeyError` instead of returning an "unknown tool" string. -/
theorem handle_tool_use_missing_param_cex :
    handle_tool_use wit8_env "web_search" [] = .error "KeyError: query" ∧
    handle_tool_use wit8_env "web_search" [] ≠
      .ok (.str ("未知工具: " ++ "web_search")) := by
  constructor
  · rfl
  · intro h
    simp [handle_tool_use, lookup_param] at h

/-- Claim C8 (amended): only a tool name outside the fixed vocabulary
produces the "unknown tool" string result; a recognized tool whose required
parameter is missing raises a `KeyError` exception, failing the turn. -/
theorem handle_tool_use_dispatch (env : ToolEnv) (toolName : String)
    (input : List (String × String)) :
    (toolName ≠ "web_search" → toolName ≠ "summarize_url" →
     toolName ≠ "analyze_file_url" →
       handle_tool_use env toolName input = .ok (.str ("未知工具: " ++ toolName))) ∧
    (lookup_param input "query" = none →
       handle_tool_use env "web_search" input = .error "KeyError: query") := by
  constructor
  · intro h1 h2 h3
    unfold handle_tool_use
    rw [if_neg h1, if_neg h2, if_neg h3]
  · intro h
    unfold handle_tool_use
    rw [if_pos rfl, h]

/-- Witness for `handle_tool_use_dispatch`: an unrecognized name returns the
unknown-tool string, and a missing "query" raises. -/
theorem handle_tool_use_dispatch_witness :
    handle_tool_use wit8_env "fetch_weather" [] = .ok (.str ("未知工具: " ++ "fetch_weather")) ∧
    handle_tool_use wit8_env "web_search" [("url", "x")] = .error "KeyError: query" :=
  ⟨(handle_tool_use_dispatch wit8_env "fetch_weather" []).1
      (by decide) (by decide) (by decide),
   (handle_tool_use_dispatch wit8_env "web_search" [("url", "x")]).2 (by decide)⟩

/-! ### Shared helper lemmas about the fusion stage -/

theorem extract_text_eq (nextD nuxtD jsonLd sem : String × String)
    (meta : ExtractedMetadata) :
    (extract_content_from_html nextD nuxtD jsonLd sem meta).text =
      (fuse_semantic (embedded_stage (best_embedded [nextD, nuxtD, jsonLd])) sem).1 := rfl

theorem extract_sources_eq (nextD nuxtD jsonLd sem : String × String)
    (meta : ExtractedMetadata) :
    (extract_content_from_html nextD nuxtD jsonLd sem meta).sources =
      (fuse_semantic (embedded_stage (best_embedded [nextD, nuxtD, jsonLd])) sem).2 := rfl

theorem embedded_stage_pos (best : String × String) (h : best.1 ≠ "") :
    embedded_stage best = (best.1, [best.2]) := by
  unfold embedded_stage
  rw [if_pos h]

theorem embedded_stage_neg (best : String × String) (h : best.1 = "") :
    embedded_stage best = ("", []) := by
  unfold embedded_stage
  rw [if_neg (by simpa using h)]

theorem fuse_semantic_no_sem (ae : String × List String) (sem : String × String)
    (h : sem.1 = "") : fuse_semantic ae sem = ae := by
  unfold fuse_semantic
  rw [if_neg (by simpa using h)]

theorem fuse_semantic_sem_longer (ae : String × List String) (sem : String × String)
    (hsem : sem.1 ≠ "") (h : ae.1 = "" ∨ ae.1.length < sem.1.length) :
    fuse_semantic ae sem = (sem.1, sem.2 :: ae.2) := by
  unfold fuse_semantic
  rw [if_pos hsem, if_pos h]

theorem fuse_semantic_keep_new (ae : String × List String) (sem : String × String)
    (hsem : sem.1 ≠ "") (hne : ae.1 ≠ "") (hge : sem.1.length ≤ ae.1.length)
    (hmem : sem.2 ∉ ae.2) :
    fuse_semantic ae sem = (ae.1, ae.2 ++ [sem.2]) := by
  unfold fuse_semantic
  rw [if_pos hsem, if_neg (not_or.mpr ⟨hne, not_lt.mpr hge⟩), if_pos hmem]

theorem fuse_semantic_keep_dup (ae : String × List String) (sem : String × String)
    (hsem : sem.1 ≠ "") (hne : ae.1 ≠ "") (hge : sem.1.length ≤ ae.1.length)
    (hmem : sem.2 ∈ ae.2) :
    fuse_semantic ae sem = ae := by
  unfold fuse_semantic
  rw [if_pos hsem, if_neg (not_or.mpr ⟨hne, not_lt.mpr hge⟩),
    if_neg (by simpa using hmem)]

/-- The embedded winner, when non-empty, carries one of the three embedded
tags (from the visible contracts of the three extractors). -/
theorem best_embedded_tag_mem (nextD nuxtD jsonLd : String × String)
    (h1 : EmbeddedWF nextD "next_data") (h2 : EmbeddedWF nuxtD "nuxt_data")
    (h3 : EmbeddedWF jsonLd "json_ld") :
    (best_embedded [nextD, nuxtD, jsonLd]).1 = "" ∨
      (best_embedded [nextD, nuxtD, jsonLd]).2 ∈ embedded_tags := by
  rcases h1 with h1 | ⟨h1t, _⟩ <;> rcases h2 with h2 | ⟨h2t, _⟩ <;>
    rcases h3 with h3 | ⟨h3t, _⟩ <;>
    simp only [best_embedded, List.foldl] <;>
    split_ifs <;> simp_all [embedded_tags]

/-- No tag is both an embedded-data tag and a semantic/fallback tag. -/
theorem tags_disjoint (a : String) :
    ¬(a ∈ embedded_tags ∧ a ∈ semantic_fallback_tags) := by
  rintro ⟨he, hs⟩
  fin_cases he <;> exact absurd hs (by decide)

theorem contains_eq_true_of_mem {l : List String} {a : String} (h : a ∈ l) :
    l.contains a = true :=
  List.elem_eq_true_of_mem h

theorem embedded_contains_eq_false {a : String} (h : a ∈ semantic_fallback_tags) :
    embedded_tags.contains a = false := by
  rw [Bool.eq_false_iff]
  intro hc
  exact tags_disjoint a ⟨List.mem_of_elem_eq_true hc, h⟩

theorem semantic_contains_eq_false {a : String} (h : a ∈ embedded_tags) :
    semantic_fallback_tags.contains a = false := by
  rw [Bool.eq_false_iff]
  intro hc
  exact tags_disjoint a ⟨h, List.mem_of_elem_eq_true hc⟩

/-! ### Claim C6 -/

/-- Claim C6: when both the embedded-data stage and the semantic extractor
produce non-empty text, the fused working text is the longer of the two
(ties keep the embedded text), and whenever the two source tags differ both
tags — in particular the shorter contributor's — appear in the result's
source list. -/
theorem fusion_longer_text_wins (nextD nuxtD jsonLd sem : String × String)
    (meta : ExtractedMetadata)
    (hemb : (best_embedded [nextD, nuxtD, jsonLd]).1 ≠ "") (hsem : sem.1 ≠ "") :
    (extract_content_from_html nextD nuxtD jsonLd sem meta).text.length =
      max (best_embedded [nextD, nuxtD, jsonLd]).1.length sem.1.length ∧
    ((extract_content_from_html nextD nuxtD jsonLd sem meta).text =
        (best_embedded [nextD, nuxtD, jsonLd]).1 ∨
      (extract_content_from_html nextD nuxtD jsonLd sem meta).text = sem.1) ∧
    (sem.2 ≠ (best_embedded [nextD, nuxtD, jsonLd]).2 →
      (best_embedded [nextD, nuxtD, jsonLd]).2 ∈
          (extract_content_from_html nextD nuxtD jsonLd sem meta).sources ∧
        sem.2 ∈ (extract_content_from_html nextD nuxtD jsonLd sem meta).sources) := by
  rw [extract_text_eq, extract_sources_eq,
    embedded_stage_pos (best_embedded [nextD, nuxtD, jsonLd]) hemb]
  rcases Nat.lt_or_ge (best_embedded [nextD, nuxtD, jsonLd]).1.length sem.1.length with
    hlt | hge
  · rw [fuse_semantic_sem_longer _ sem hsem (Or.inr hlt)]
    refine ⟨by simpa using Nat.max_eq_right (Nat.le_of_lt hlt), Or.inr rfl, ?_⟩
    intro _
    exact ⟨by simp, by simp⟩
  · by_cases hdup : sem.2 = (best_embedded [nextD, nuxtD, jsonLd]).2
    · rw [fuse_semantic_keep_dup _ sem hsem hemb hge (by simp [hdup])]
      exact ⟨by simp [Nat.max_eq_left hge], Or.inl rfl, fun hne => absurd hdup hne⟩
    · rw [fuse_semantic_keep_new _ sem hsem hemb hge (by simp [hdup])]
      refine ⟨by simpa using Nat.max_eq_left hge, Or.inl rfl, ?_⟩
      intro _
      exact ⟨by simp, by simp⟩

/-- Witness for `fusion_longer_text_wins`: a 120-character embedded text and
a 150-character semantic text. -/
theorem fusion_longer_text_wins_witness :
    (extract_content_from_html (wit6_a120, "next_data") ("", "") ("", "")
        (wit6_a150, "semantic:article") {}).text.length =
      max (best_embedded [(wit6_a120, "next_data"), ("", ""), ("", "")]).1.length
        wit6_a150.length ∧
    ((extract_content_from_html (wit6_a120, "next_data") ("", "") ("", "")
        (wit6_a150, "semantic:article") {}).text =
        (best_embedded [(wit6_a120, "next_data"), ("", ""), ("", "")]).1 ∨
      (extract_content_from_html (wit6_a120, "next_data") ("", "") ("", "")
        (wit6_a150, "semantic:article") {}).text = wit6_a150) ∧
    ("semantic:article" ≠ (best_embedded [(wit6_a120, "next_data"), ("", ""), ("", "")]).2 →
      (best_embedded [(wit6_a120, "next_data"), ("", ""), ("", "")]).2 ∈
          (extract_content_from_html (wit6_a120, "next_data") ("", "") ("", "")
            (wit6_a150, "semantic:article") {}).sources ∧
        "semantic:article" ∈
          (extract_content_from_html (wit6_a120, "next_data") ("", "") ("", "")
            (wit6_a150, "semantic:article") {}).sources) :=
  fusion_longer_text_wins (wit6_a120, "next_data") ("", "") ("", "")
    (wit6_a150, "semantic:article") {} (by decide) (by decide)

/-! ### Claim C10 -/

/-- Claim C10: under the visible output contracts of the four extractors,
the assembled result's source list has no duplicate tags, holds at most two
entries — at most one embedded-data tag and at most one semantic/fallback
tag — and is non-empty exactly when the extracted text is non-empty. -/
theorem pipeline_sources_invariant (nextD nuxtD jsonLd sem : String × String)
    (meta : ExtractedMetadata)
    (h1 : EmbeddedWF nextD "next_data") (h2 : EmbeddedWF nuxtD "nuxt_data")
    (h3 : EmbeddedWF jsonLd "json_ld") (hs : SemanticWF sem) :
    (extract_content_from_html nextD nuxtD jsonLd sem meta).sources.Nodup ∧
    (extract_content_from_html nextD nuxtD jsonLd sem meta).sources.length ≤ 2 ∧
    (extract_content_from_html nextD nuxtD jsonLd sem meta).sources.countP
        (fun x => embedded_tags.contains x) ≤ 1 ∧
    (extract_content_from_html nextD nuxtD jsonLd sem meta).sources.countP
        (fun x => semantic_fallback_tags.contains x) ≤ 1 ∧
    ((extract_content_from_html nextD nuxtD jsonLd sem meta).sources ≠ [] ↔
      (extract_content_from_html nextD nuxtD jsonLd sem meta).text ≠ "") := by
  rw [extract_text_eq, extract_sources_eq]
  by_cases hemb : (best_embedded [nextD, nuxtD, jsonLd]).1 = ""
  · rw [embedded_stage_neg _ hemb]
    by_cases hsem : sem.1 = ""
    · rw [fuse_semantic_no_sem _ _ hsem]
      simp
    · rw [fuse_semantic_sem_longer _ _ hsem (Or.inl rfl)]
      have hsm : sem.2 ∈ semantic_fallback_tags := hs.resolve_left hsem
      have hsne : sem.2 ∉ embedded_tags := fun h => tags_disjoint sem.2 ⟨h, hsm⟩
      simp [List.countP_cons, hsm, hsne, hsem]
  · have hbt : (best_embedded [nextD, nuxtD, jsonLd]).2 ∈ embedded_tags :=
      (best_embedded_tag_mem nextD nuxtD jsonLd h1 h2 h3).resolve_left hemb
    have hbne : (best_embedded [nextD, nuxtD, jsonLd]).2 ∉ semantic_fallback_tags :=
      fun h => tags_disjoint _ ⟨hbt, h⟩
    rw [embedded_stage_pos _ hemb]
    by_cases hsem : sem.1 = ""
    · rw [fuse_semantic_no_sem _ _ hsem]
      simp [List.countP_cons, hbt, hbne, hemb]
    · have hsm : sem.2 ∈ semantic_fallback_tags := hs.resolve_left hsem
      have hsne : sem.2 ∉ embedded_tags := fun h => tags_disjoint sem.2 ⟨h, hsm⟩
      have hne2 : sem.2 ≠ (best_embedded [nextD, nuxtD, jsonLd]).2 := by
        intro h
        exact tags_disjoint sem.2 ⟨h ▸ hbt, hsm⟩
      rcases Nat.lt_or_ge (best_embedded [nextD, nuxtD, jsonLd]).1.length
          sem.1.length with hlt | hge
      · rw [fuse_semantic_sem_longer _ _ hsem (Or.inr hlt)]
        simp [List.countP_cons, hbt, hbne, hsm, hsne, hsem, hne2]
      · rw [fuse_semantic_keep_new _ _ hsem hemb hge (by simp [hne2])]
        simp [List.countP_cons, hbt, hbne, hsm, hsne, hemb, Ne.symm hne2]

/-- Witness for `pipeline_sources_invariant` at concrete extractor
outputs satisfying the contracts. -/
theorem pipeline_sources_invariant_witness :
    (extract_content_from_html (wit6_a120, "next_data") ("", "") ("", "")
        (wit6_a150, "semantic:article") {}).sources.Nodup ∧
    (extract_content_from_html (wit6_a120, "next_data") ("", "") ("", "")
        (wit6_a150, "semantic:article") {}).sources.length ≤ 2 ∧
    (extract_content_from_html (wit6_a120, "next_data") ("", "") ("", "")
        (wit6_a150, "semantic:article") {}).sources.countP
        (fun x => embedded_tags.contains x) ≤ 1 ∧
    (extract_content_from_html (wit6_a120, "next_data") ("", "") ("", "")
        (wit6_a150, "semantic:article") {}).sources.countP
        (fun x => semantic_fallback_tags.contains x) ≤ 1 ∧
    ((extract_content_from_html (wit6_a120, "next_data") ("", "") ("", "")
        (wit6_a150, "semantic:article") {}).sources ≠ [] ↔
      (extract_content_from_html (wit6_a120, "next_data") ("", "") ("", "")
        (wit6_a150, "semantic:article") {}).text ≠ "") :=
  pipeline_sources_invariant (wit6_a120, "next_data") ("", "") ("", "")
    (wit6_a150, "semantic:article") {}
    (Or.inr ⟨rfl, by decide⟩) (Or.inl rfl) (Or.inl rfl)
    (Or.inr (by decide))

/-! ### Claim C9 -/

theorem run_tool_uses_map_fst (env : ToolEnv) (bs : List Block)
    (rs : List (String × ToolOut)) (h : run_tool_uses env bs = .ok rs) :
    rs.map Prod.fst = req_ids bs := by
  induction bs generalizing rs with
  | nil =>
    simp only [run_tool_uses] at h
    injection h with h
    subst h
    simp [req_ids]
  | cons b rest ih =>
    cases b with
    | text s =>
      simp only [run_tool_uses] at h
      simpa [req_ids] using ih rs h
    | toolUse i n inp =>
      simp only [run_tool_uses] at h
      cases hh : handle_tool_use env n inp with
      | error e =>
        rw [hh] at h
        exact absurd h (by simp)
      | ok out =>
        rw [hh] at h
        cases hr : run_tool_uses env rest with
        | error e =>
          rw [hr] at h
          exact absurd h (by simp)
        | ok rs2 =>
          rw [hr] at h
          injection h with h
          subst h
          simp [req_ids, List.filterMap_cons]
          simpa [req_ids] using ih rs2 hr

theorem req_ids_filter_length (bs : List Block) :
    (req_ids (bs.filter is_tool_use_block)).length =
      (bs.filter is_tool_use_block).length := by
  induction bs with
  | nil => simp [req_ids]
  | cons b rest ih =>
    cases b with
    | text s => simpa [List.filter_cons, is_tool_use_block] using ih
    | toolUse i n inp =>
      simpa [List.filter_cons, is_tool_use_block, req_ids, List.filterMap_cons]
        using ih

/-- Claim C9: in the tool-use loop, a model response whose stop reason is
"tool_use" and which requests N ≥ 1 tool calls (and whose executions do not
raise) yields exactly N results paired to the requests' correlation ids in
request order, appended to the history as one assistant turn plus one
results turn before the next scripted model call; and a response with zero
tool-use blocks terminates the loop with its first text block as the final
answer. -/
theorem process_message_tool_turn (env : ToolEnv) (msgs : List Message)
    (r : ModelResponse) (rest : List ModelResponse) :
    (∀ rs, r.stop_reason = "tool_use" → tool_use_blocks r ≠ [] →
       run_tool_uses env (tool_use_blocks r) = .ok rs →
       rs.length = (tool_use_blocks r).length ∧
       rs.map Prod.fst = req_ids (tool_use_blocks r) ∧
       process_loop env (r :: rest) msgs =
         process_loop env rest
           (msgs ++ [⟨"assistant", .blocks r.content⟩, ⟨"user", .toolResults rs⟩])) ∧
    (∀ s ts, tool_use_blocks r = [] → text_blocks r = s :: ts →
       process_loop env (r :: rest) msgs = some (.ok s)) := by
  constructor
  · intro rs hstop hne hrun
    have hmap := run_tool_uses_map_fst env (tool_use_blocks r) rs hrun
    have hlen : rs.length = (tool_use_blocks r).length := by
      calc rs.length = (rs.map Prod.fst).length := (List.length_map _ _).symm
        _ = (req_ids (tool_use_blocks r)).length := by rw [hmap]
        _ = (tool_use_blocks r).length := req_ids_filter_length r.content
    have hstep : agent_step env msgs r =
        .next (msgs ++ [⟨"assistant", .blocks r.content⟩, ⟨"user", .toolResults rs⟩]) := by
      unfold agent_step
      rw [hstop, if_pos rfl]
      rcases hbs : tool_use_blocks r with _ | ⟨b, bs⟩
      · exact absurd hbs hne
      · rw [hbs] at hrun
        rw [hrun]
    exact ⟨hlen, hmap, by simp only [process_loop, hstep]⟩
  · intro s ts hbs htb
    have hstep : agent_step env msgs r = .done s := by
      unfold agent_step
      split_ifs with h
      · rw [hbs]
        simp [extract_final_text, htb]
      · simp [extract_final_text, htb]
    simp only [process_loop, hstep]

/-- Witness for `process_message_tool_turn`: a concrete two-tool turn. -/
theorem process_message_tool_turn_witness :
    wit9_rs.length = (tool_use_blocks wit9_resp).length ∧
    wit9_rs.map Prod.fst = req_ids (tool_use_blocks wit9_resp) ∧
    process_loop wit9_env (wit9_resp :: wit9_rest) [] =
      process_loop wit9_env wit9_rest
        ([] ++ [⟨"assistant", .blocks wit9_resp.content⟩,
                ⟨"user", .toolResults wit9_rs⟩]) :=
  (process_message_tool_turn wit9_env [] wit9_resp wit9_rest).1 wit9_rs rfl
    (by decide) rfl

end ClaudeGram
